import Mathlib

/-!
Shallow embedding of the peer-to-peer chat program (`chat.py`).

The program races an accepting listener thread against an outbound
connector thread for a single shared connection slot (`chat_conn`,
guarded by `chat_conn_lock`, with a one-shot `connection_established`
event), then runs a duplex chat session of a sending loop and a
receiving loop, and persists the partner configuration to a file.

Connections are identified by natural numbers.  The atomic section each
branch executes while holding the lock (check the slot, either store the
connection and set the event, or close the redundant connection) is
embedded as `claim_slot`; an interleaving of the two branches is a list
of claim events, folded by `runClaims`.  The bodies of the send and
receive loops are embedded as pure step functions over the outcome of
the I/O calls, and `save_config` over an abstract file state.
-/

namespace Chat

/-- The fixed rendezvous port (`PORT = 5000` in `chat.py`). -/
def PORT : Nat := 5000

/-- Which racing branch performs a claim: the accepting listener
(`server_thread_func`) or the outbound connector (`client_thread_func`). -/
inductive Branch where
  | acceptor
  | connector
deriving DecidableEq, Repr

/-- The shared state of the connection race: the slot `chat_conn`
(`None` initially), the `connection_established` event, and the list of
connections that have been closed as redundant. -/
structure RaceState where
  chat_conn : Option Nat
  connection_established : Bool
  closed : List Nat
deriving DecidableEq, Repr

/-- The initial shared state: empty slot, event unset, nothing closed. -/
def initState : RaceState := ⟨none, false, []⟩

/-- The atomic section executed under `chat_conn_lock` by both branches
(`chat.py` lines 76-83 and 104-110): if the slot is empty, store the
connection and set the event; otherwise close the redundant connection. -/
def claim_slot (st : RaceState) (c : Nat) : RaceState :=
  if st.chat_conn = none then
    { chat_conn := some c
      connection_established := true
      closed := st.closed }
  else
    { st with closed := c :: st.closed }

/-- Run an interleaving of claim events from both branches. -/
def runClaims (st : RaceState) (evs : List (Branch × Nat)) : RaceState :=
  evs.foldl (fun s e => claim_slot s e.2) st

/-- The guard of the listener loop (`while not connection_established.is_set()`,
`chat.py` line 73): the branch keeps running exactly while the event is unset. -/
def server_loop_guard (established : Bool) : Bool := !established

/-- The guard of the connector loop (`while not connection_established.is_set()`,
`chat.py` line 99). -/
def client_loop_guard (established : Bool) : Bool := !established

/-- What a run of one racing branch contributes: the lines it prints and
the claim events it performs on the shared state. -/
structure BranchRun where
  printed : List String
  events : List (Branch × Nat)
deriving DecidableEq, Repr

/-- The listener branch (`server_thread_func`): if bind/listen raises
(`bindErr = some e`), it prints the failure and returns, performing no
claims; otherwise it prints the listening notice and claims each
accepted connection in turn. -/
def server_thread_func (bindErr : Option String) (accepted : List Nat) :
    BranchRun :=
  match bindErr with
  | some e =>
      ⟨["[Listener] Failed to bind/listen on port " ++ toString PORT ++ ": " ++ e],
       []⟩
  | none =>
      ⟨["[Listener] Listening for incoming connections on port "
          ++ toString PORT ++ "..."],
       accepted.map (fun c => (Branch.acceptor, c))⟩

/-- The connector branch (`client_thread_func`): each successful
outbound connect yields a claim event tagged `connector`. -/
def client_thread_func (connectedSocks : List Nat) : BranchRun :=
  ⟨[], connectedSocks.map (fun c => (Branch.connector, c))⟩

/-- The observable outcome of the tail of `main` (`chat.py` lines
204-219), as a function of whether `connection_established.wait(timeout=60)`
succeeded.  `setsEstablished` records whether `main` itself ever calls
`connection_established.set()` on that path (it never does). -/
structure MainOutcome where
  printed : List String
  configSaved : Bool
  sessionStarted : Bool
  setsEstablished : Bool
deriving DecidableEq, Repr

/-- The tail of `main` after starting the two threads: on timeout, print
the actionable message and return (no save, no session, no signalling);
on success, save the config, print the ready notice, and start the
session. -/
def main_wait_phase (waitSucceeded : Bool) : MainOutcome :=
  if waitSucceeded then
    ⟨["Chat connection established. You can start messaging now."],
     true, true, false⟩
  else
    ⟨["Unable to establish connection. Please check the partner\x27s IP address and try again."],
     false, false, false⟩

/-! ### Configuration persistence (`save_config`) -/

/-- A parsed configuration record: a JSON object whose `partner_name`
and `partner_ip` keys may each be present or absent (`dict.get` returns
`None` for a missing key). -/
structure ChatConfig where
  partner_name : Option String
  partner_ip : Option String
deriving DecidableEq, Repr

/-- The state of the configuration file: missing, present but not
parseable as JSON, or present with parsed contents. -/
inductive FileState where
  | absent
  | corrupted
  | stored (c : ChatConfig)
deriving DecidableEq, Repr

/-- The result of a `save_config` call: the file state afterwards, how
many file writes were performed, and what was printed. -/
structure SaveResult where
  fs : FileState
  writes : Nat
  printed : List String
deriving DecidableEq, Repr

/-- `save_config` (`chat.py` lines 28-50): if the file exists, parses,
and already stores exactly this name and ip, print the no-update notice
and return without writing; otherwise (missing, corrupted, or different
contents) write the new record. -/
def save_config (fs : FileState) (partner_name partner_ip : String) :
    SaveResult :=
  match fs with
  | .stored c =>
      if c.partner_name = some partner_name ∧ c.partner_ip = some partner_ip then
        ⟨fs, 0, ["Configuration already saved, no update needed."]⟩
      else
        ⟨.stored ⟨some partner_name, some partner_ip⟩, 1,
         ["Configuration saved successfully."]⟩
  | _ =>
      ⟨.stored ⟨some partner_name, some partner_ip⟩, 1,
       ["Configuration saved successfully."]⟩

/-! ### The duplex session loops -/

/-- Model of the Python method `str.strip()` with no argument: remove
whitespace from both ends of the string. -/
def pyStrip (s : String) : String :=
  ⟨((s.data.dropWhile Char.isWhitespace).reverse.dropWhile
      Char.isWhitespace).reverse⟩

/-- The outcome of a `sock.sendall` call: success, or an exception with
message `e`. -/
inductive SendOutcome where
  | ok
  | err (e : String)
deriving DecidableEq, Repr

/-- The observable effect of one iteration of the send loop: the
payloads passed to `sendall` (in order), the lines printed, whether
`sock.close()` was called, and whether the loop continues. -/
structure SendResult where
  sent : List String
  printed : List String
  closedConn : Bool
  continueLoop : Bool
deriving DecidableEq, Repr

/-- One iteration of the send loop of `send_messages` (`chat.py` lines
122-138), for input line `msg`, local name `my_name`, and `sendRes` the
outcome of the `sendall` call it makes.  If the stripped input is the
exit token `exit()`, it sends the bare control marker `USER_EXIT`
(printing an error if that raises), prints the local confirmation,
closes the socket, and breaks.  Otherwise it sends the name-prefixed
line; on failure it prints an error and breaks without closing. -/
def send_messages_step (my_name msg : String) (sendRes : SendOutcome) :
    SendResult :=
  if pyStrip msg = "exit()" then
    { sent := ["USER_EXIT"]
      printed :=
        (match sendRes with
         | .ok => []
         | .err e => ["Error sending exit message: " ++ e])
          ++ ["You have exited the chat."]
      closedConn := true
      continueLoop := false }
  else
    { sent := [my_name ++ ": " ++ msg]
      printed :=
        match sendRes with
        | .ok => []
        | .err e => ["Error sending message: " ++ e]
      closedConn := false
      continueLoop :=
        match sendRes with
        | .ok => true
        | .err _ => false }

/-- The outcome of one `sock.recv(1024)` (plus decode): either decoded
data (the empty string models a zero-length read, i.e. the peer closed),
or an exception with message `e`. -/
inductive RecvOutcome where
  | data (s : String)
  | err (e : String)
deriving DecidableEq, Repr

/-- The observable effect of one iteration of the receive loop: the
lines printed and whether the loop continues. -/
structure RecvResult where
  printed : List String
  continueLoop : Bool
deriving DecidableEq, Repr

/-- One iteration of the receive loop of `receive_messages` (`chat.py`
lines 146-159): a read error prints an error and breaks; a zero-length
read prints the closed-by-partner notice and breaks; a payload equal to
`USER_EXIT` prints the partner-exited notice and breaks; any other
payload is printed as a chat message and the loop continues. -/
def receive_messages_step (r : RecvOutcome) : RecvResult :=
  match r with
  | .err e => ⟨["Error receiving message: " ++ e], false⟩
  | .data s =>
      if s = "" then
        ⟨["Connection closed by the partner."], false⟩
      else if s = "USER_EXIT" then
        ⟨["The partner has exited the chat. They are offline."], false⟩
      else
        ⟨[s], true⟩

/-! ### Helper lemmas -/

/-- Unfolding one claim event. -/
lemma runClaims_cons (st : RaceState) (e : Branch × Nat)
    (evs : List (Branch × Nat)) :
    runClaims st (e :: evs) = runClaims (claim_slot st e.2) evs := rfl

/-- Splitting a trace of claim events. -/
lemma runClaims_append (st : RaceState) (t1 t2 : List (Branch × Nat)) :
    runClaims st (t1 ++ t2) = runClaims (runClaims st t1) t2 := by
  simp [runClaims, List.foldl_append]

/-- Claiming against a filled slot only closes the new connection. -/
lemma claim_slot_of_some (st : RaceState) (c0 c : Nat)
    (h : st.chat_conn = some c0) :
    claim_slot st c = { st with closed := c :: st.closed } := by
  simp [claim_slot, h]

/-- Once the slot holds a connection, any further trace of claim events
leaves it (and the event flag) unchanged and closes every newly claimed
connection. -/
lemma runClaims_of_some (evs : List (Branch × Nat)) :
    ∀ (st : RaceState) (c0 : Nat), st.chat_conn = some c0 →
      (runClaims st evs).chat_conn = some c0 ∧
      (runClaims st evs).connection_established = st.connection_established ∧
      (runClaims st evs).closed = (evs.map Prod.snd).reverse ++ st.closed := by
  induction evs with
  | nil => intro st c0 h; simp [runClaims, h]
  | cons e evs ih =>
      intro st c0 h
      rw [runClaims_cons, claim_slot_of_some st c0 e.2 h]
      have := ih { st with closed := e.2 :: st.closed } c0 h
      simp only [this.1, this.2.1, this.2.2, true_and]
      simp

/-- The first claim on the empty slot stores the connection and sets the
event. -/
lemma claim_slot_init (c : Nat) :
    claim_slot initState c = ⟨some c, true, []⟩ := rfl

/-- Reachable states satisfy: the event set implies the slot filled. -/
lemma runClaims_established_inv (evs : List (Branch × Nat)) :
    ∀ st : RaceState,
      (st.connection_established = true → st.chat_conn ≠ none) →
      ((runClaims st evs).connection_established = true →
        (runClaims st evs).chat_conn ≠ none) := by
  induction evs with
  | nil => intro st h; exact h
  | cons e evs ih =>
      intro st h
      rw [runClaims_cons]
      apply ih
      by_cases hc : st.chat_conn = none
      · intro _
        simp [claim_slot, hc]
      · intro _
        simp [claim_slot, hc]

/-! ### Claim theorems -/

/-- Claim C1: the shared connection slot is single-assignment.  In every
interleaving of claim events from the acceptor and connector branches,
(1) once the slot holds a connection it is never overwritten by any
further events, and (2) a nonempty trace stores exactly its first
connection and every other claimed connection is closed rather than
stored. -/
theorem chat_conn_single_assignment :
    (∀ (t1 t2 : List (Branch × Nat)) (c : Nat),
        (runClaims initState t1).chat_conn = some c →
        (runClaims initState (t1 ++ t2)).chat_conn = some c) ∧
    (∀ (b : Branch) (c : Nat) (evs : List (Branch × Nat)),
        (runClaims initState ((b, c) :: evs)).chat_conn = some c ∧
        (runClaims initState ((b, c) :: evs)).closed =
          (evs.map Prod.snd).reverse) := by
  constructor
  · intro t1 t2 c h
    rw [runClaims_append]
    exact (runClaims_of_some t2 (runClaims initState t1) c h).1
  · intro b c evs
    rw [runClaims_cons]
    have := runClaims_of_some evs (claim_slot initState c) c (by rfl)
    refine ⟨this.1, ?_⟩
    rw [this.2.2]
    simp [claim_slot_init]

/-- Witness for C1: after the acceptor claims connection 5 and the
connector then claims connection 6, the slot still holds 5. -/
theorem chat_conn_single_assignment_witness :
    (runClaims initState
      ([(Branch.acceptor, 5)] ++ [(Branch.connector, 6)])).chat_conn =
      some 5 :=
  chat_conn_single_assignment.1 [(Branch.acceptor, 5)]
    [(Branch.connector, 6)] 5 (by decide)

/-- Claim C9: whenever the `connection_established` event is set in a
reachable race state, the slot `chat_conn` is non-None, so when the wait
in `main` succeeds, `chat_session` receives an established connection. -/
theorem established_implies_conn_some :
    ∀ evs : List (Branch × Nat),
      (runClaims initState evs).connection_established = true →
      ∃ c, (runClaims initState evs).chat_conn = some c := by
  intro evs h
  have hne := runClaims_established_inv evs initState (by intro h0; cases h0) h
  cases hco : (runClaims initState evs).chat_conn with
  | none => exact absurd hco hne
  | some c => exact ⟨c, rfl⟩

/-- Witness for C9: after the connector claims connection 7, the event
is set and the slot is non-None. -/
theorem established_implies_conn_some_witness :
    ∃ c, (runClaims initState [(Branch.connector, 7)]).chat_conn = some c :=
  established_implies_conn_some [(Branch.connector, 7)] (by decide)

/-- Claim C8: a bind/listen failure in the acceptor branch only prints
the failure and ends that branch with no claim events, and the
connector branch alone can still claim the slot and establish the
winning connection. -/
theorem bind_failure_nonfatal :
    (∀ (e : String) (accepted : List Nat),
        server_thread_func (some e) accepted =
          ⟨["[Listener] Failed to bind/listen on port " ++ toString PORT
              ++ ": " ++ e], []⟩) ∧
    (∀ c : Nat,
        runClaims initState (client_thread_func [c]).events =
          ⟨some c, true, []⟩) := by
  exact ⟨fun e accepted => rfl, fun c => rfl⟩

/-! ### String helper lemmas -/

/-- A colon occurs in every name-separated payload. -/
lemma colon_mem_sep (n m : String) : ':' ∈ (n ++ ": " ++ m).data := by
  have h : (n ++ ": " ++ m).data = (n.data ++ [':', ' ']) ++ m.data := rfl
  rw [h]
  simp

/-- A name-separated payload is never the bare control marker. -/
lemma colon_sep_ne_marker (n m : String) : n ++ ": " ++ m ≠ "USER_EXIT" := by
  intro h
  have hc := colon_mem_sep n m
  rw [h] at hc
  exact absurd hc (by decide)

/-- A name-separated payload is never empty. -/
lemma colon_sep_ne_empty (n m : String) : n ++ ": " ++ m ≠ "" := by
  intro h
  have hc := colon_mem_sep n m
  rw [h] at hc
  exact absurd hc (by decide)

/-! ### Session, timeout and configuration theorems -/

/-- Claim C2 counterexample: on the timeout path, `main` never sets the
`connection_established` event, and with the event still unset both
branch loop guards allow a further iteration — so the branches are not
told to stop via the shared established signal. -/
theorem timeout_does_not_signal_branches :
    (main_wait_phase false).setsEstablished = false ∧
    server_loop_guard false = true ∧
    client_loop_guard false = true := by decide

/-- Claim C2 (amended): if the 60-unit wait on the established event
fails, `main` prints the actionable message and returns without saving
the partner config, without starting a chat session, and without
setting the established signal (the branches are not signalled; as
daemon threads they end only with the process). -/
theorem timeout_path_prints_and_aborts :
    main_wait_phase false =
      ⟨["Unable to establish connection. Please check the partner\x27s IP address and try again."],
       false, false, false⟩ := by decide

/-- Claim C3: for any input whose stripped text is the exit token, the
send loop sends exactly the bare control marker `USER_EXIT`, prints the
local confirmation, closes the connection and stops; and a received
payload equal to `USER_EXIT` makes the receive loop print the
partner-exited notice and stop without printing it as a chat message. -/
theorem exit_token_round_trip :
    ∀ (my_name msg : String), pyStrip msg = "exit()" →
      send_messages_step my_name msg .ok =
        ⟨["USER_EXIT"], ["You have exited the chat."], true, false⟩ ∧
      receive_messages_step (.data "USER_EXIT") =
        ⟨["The partner has exited the chat. They are offline."], false⟩ ∧
      "USER_EXIT" ∉ (receive_messages_step (.data "USER_EXIT")).printed := by
  intro my_name msg h
  refine ⟨?_, by decide, by decide⟩
  simp [send_messages_step, h]

/-- Witness for C3: the input line `" exit() "` strips to the exit
token and triggers the exit path. -/
theorem exit_token_round_trip_witness :
    pyStrip " exit() " = "exit()" ∧
    send_messages_step "Bob" " exit() " .ok =
      ⟨["USER_EXIT"], ["You have exited the chat."], true, false⟩ :=
  ⟨by decide, (exit_token_round_trip "Bob" " exit() " (by decide)).1⟩

/-- Claim C4 counterexample: a user typing the exact string `USER_EXIT`
as an ordinary chat message has it sent as `Alice: USER_EXIT`, which
differs from the bare control marker, and the receive loop prints it as
an ordinary chat message and continues — not the same treatment as a
genuine exit. -/
theorem typed_exit_token_not_collision :
    (send_messages_step "Alice" "USER_EXIT" .ok).sent = ["Alice: USER_EXIT"] ∧
    ("Alice: USER_EXIT" : String) ≠ "USER_EXIT" ∧
    receive_messages_step (.data "Alice: USER_EXIT") =
      ⟨["Alice: USER_EXIT"], true⟩ ∧
    receive_messages_step (.data "Alice: USER_EXIT") ≠
      receive_messages_step (.data "USER_EXIT") := by decide

/-- Claim C4 (amended): for every display name, a user typing the exact
string `USER_EXIT` as an ordinary chat message has it sent with the
display-name separator, the resulting payload always differs from the
bare control marker, and the receive loop prints it as an ordinary chat
message and continues, so the two cases are distinguishable. -/
theorem typed_exit_token_distinguishable :
    ∀ my_name : String,
      (send_messages_step my_name "USER_EXIT" .ok).sent =
        [my_name ++ ": " ++ "USER_EXIT"] ∧
      my_name ++ ": " ++ "USER_EXIT" ≠ "USER_EXIT" ∧
      receive_messages_step (.data (my_name ++ ": " ++ "USER_EXIT")) =
        ⟨[my_name ++ ": " ++ "USER_EXIT"], true⟩ := by
  intro n
  refine ⟨?_, colon_sep_ne_marker n "USER_EXIT", ?_⟩
  · simp only [send_messages_step]
    rw [if_neg (by decide : ¬(pyStrip "USER_EXIT" = "exit()"))]
  · simp only [receive_messages_step]
    rw [if_neg (colon_sep_ne_empty n "USER_EXIT"),
        if_neg (colon_sep_ne_marker n "USER_EXIT")]

/-- Saving always leaves the file storing exactly the given record. -/
lemma save_config_fs_eq (fs : FileState) (n ip : String) :
    (save_config fs n ip).fs = .stored ⟨some n, some ip⟩ := by
  cases fs with
  | absent => rfl
  | corrupted => rfl
  | stored c =>
      by_cases h : c.partner_name = some n ∧ c.partner_ip = some ip
      · obtain ⟨h1, h2⟩ := h
        cases c with
        | mk pn pip =>
            simp only at h1 h2
            subst h1; subst h2
            simp [save_config]
      · simp [save_config, h]

/-- Claim C5: `save_config` is idempotent — after any call, a second
call with the same name and ip performs no write and leaves the file
unchanged; a call against a stored record with different values
overwrites it with one write; and a corrupted existing file is
overwritten rather than treated as an error. -/
theorem save_config_idempotent :
    ∀ (fs : FileState) (n ip : String),
      (save_config (save_config fs n ip).fs n ip).writes = 0 ∧
      (save_config (save_config fs n ip).fs n ip).fs =
        (save_config fs n ip).fs ∧
      (∀ c : ChatConfig,
        ¬(c.partner_name = some n ∧ c.partner_ip = some ip) →
        save_config (.stored c) n ip =
          ⟨.stored ⟨some n, some ip⟩, 1,
           ["Configuration saved successfully."]⟩) ∧
      save_config .corrupted n ip =
        ⟨.stored ⟨some n, some ip⟩, 1,
         ["Configuration saved successfully."]⟩ := by
  intro fs n ip
  refine ⟨?_, ?_, ?_, rfl⟩
  · rw [save_config_fs_eq]
    simp [save_config]
  · simp [save_config_fs_eq]
  · intro c h
    simp [save_config, h]

/-- Witness for C5: saving over a differently stored record overwrites
it, and a repeated save performs no write. -/
theorem save_config_idempotent_witness :
    (save_config (save_config .absent "alice" "10.0.0.1").fs
      "alice" "10.0.0.1").writes = 0 ∧
    save_config (.stored ⟨some "bob", some "10.0.0.2"⟩)
      "alice" "10.0.0.1" =
      ⟨.stored ⟨some "alice", some "10.0.0.1"⟩, 1,
       ["Configuration saved successfully."]⟩ :=
  ⟨(save_config_idempotent .absent "alice" "10.0.0.1").1,
   (save_config_idempotent .absent "alice" "10.0.0.1").2.2.1
     ⟨some "bob", some "10.0.0.2"⟩ (by decide)⟩

/-- Claim C6: for every input line whose stripped text is not the exit
token, the send loop sends exactly the name-separated line as a single
write and continues; if the write fails it prints an error and stops
without closing the connection. -/
theorem send_normal_message :
    ∀ (my_name msg : String), pyStrip msg ≠ "exit()" →
      send_messages_step my_name msg .ok =
        ⟨[my_name ++ ": " ++ msg], [], false, true⟩ ∧
      (∀ e : String,
        send_messages_step my_name msg (.err e) =
          ⟨[my_name ++ ": " ++ msg], ["Error sending message: " ++ e],
           false, false⟩) := by
  intro n m h
  constructor
  · simp [send_messages_step, h]
  · intro e
    simp [send_messages_step, h]

/-- Witness for C6: the ordinary message `hi` is sent with the name
separator and the loop continues. -/
theorem send_normal_message_witness :
    send_messages_step "Alice" "hi" .ok =
      ⟨["Alice: hi"], [], false, true⟩ := by
  have h := (send_normal_message "Alice" "hi" (by decide)).1
  simpa using h

/-- Claim C7: in the receive loop, a read error prints an error and
stops the loop, and a zero-length read prints the closed-by-partner
notice and stops the loop — neither case continues looping. -/
theorem receive_error_paths_terminate :
    (∀ e : String,
        receive_messages_step (.err e) =
          ⟨["Error receiving message: " ++ e], false⟩) ∧
    receive_messages_step (.data "") =
      ⟨["Connection closed by the partner."], false⟩ :=
  ⟨fun e => rfl, by decide⟩

/-- Claim C10: on the exit path, a failure of the `USER_EXIT` send
leaves the behaviour unchanged except for one extra error line: the
local confirmation is still printed, the connection is still closed,
and the loop still stops. -/
theorem exit_path_resilient_to_send_failure :
    ∀ (my_name msg e : String), pyStrip msg = "exit()" →
      (send_messages_step my_name msg (.err e)).sent =
        (send_messages_step my_name msg .ok).sent ∧
      (send_messages_step my_name msg (.err e)).closedConn = true ∧
      (send_messages_step my_name msg (.err e)).continueLoop = false ∧
      (send_messages_step my_name msg (.err e)).printed =
        ("Error sending exit message: " ++ e) ::
          (send_messages_step my_name msg .ok).printed := by
  intro n m e h
  simp [send_messages_step, h]

/-- Witness for C10: a broken-pipe failure of the exit send still
closes the connection. -/
theorem exit_path_resilient_to_send_failure_witness :
    (send_messages_step "Alice" "exit()" (.err "broken pipe")).closedConn =
      true :=
  (exit_path_resilient_to_send_failure "Alice" "exit()" "broken pipe"
    (by decide)).2.1

end Chat
